import Mathlib

/-!
Shallow embedding of the Gulf of Mexico interpreter's value model
(`src/gulfofmexico/builtin.py`) and proofs about the claims of the
specification.

Python machine values are modelled as follows:
* Python `int` / `float` payloads (`GulfOfMexicoNumber.value : Union[int, float]`)
  become the tagged type `PyNum` with rational payloads (the numbers exercised
  by the claims are exactly representable as floats, so `ℚ` arithmetic agrees
  with the source's float arithmetic on them).
* Python `dict`s keyed by numbers become insertion-ordered association lists
  keyed by `ℚ` (Python dict keys `0` and `0.0` collide numerically, which `ℚ`
  keys reproduce).
* `raise` becomes `Except Err`; uncontrolled host exceptions
  (`ZeroDivisionError`, `ValueError`, `IndexError`) are distinguished from the
  interpreter's own `NonFormattedError` messages.
-/

namespace GulfSpec

/-- `FLOAT_TO_INT_PREC = 0.00000001` from `builtin.py`. -/
def FLOAT_TO_INT_PREC : ℚ := 1 / 100000000

/-- A Python number: either an `int` or a `float`.  The tag matters because
`str()` renders `123` and `123.0` differently and because arithmetic such as
`sign * int(...)` produces a `float` whenever one operand is a `float`. -/
inductive PyNum where
  | pyInt (n : ℤ)
  | pyFloat (q : ℚ)
deriving DecidableEq, Repr

/-- Numeric value of a `PyNum` (Python compares `123 == 123.0`). -/
def pyVal : PyNum → ℚ
  | .pyInt n => (n : ℚ)
  | .pyFloat q => q

/-- Python's `round` builtin on the numbers in scope: round half to even. -/
def pyRound (q : ℚ) : ℤ :=
  let f := ⌊q⌋
  let r := q - (f : ℚ)
  if r < 1 / 2 then f
  else if 1 / 2 < r then f + 1
  else if Even f then f else f + 1

/-- `is_int(x)` from `builtin.py`: `min(x % 1, 1 - x % 1) < FLOAT_TO_INT_PREC`
(Python `x % 1` is the nonnegative fractional part `x - ⌊x⌋`). -/
def is_int (x : ℚ) : Bool :=
  let r := x - (⌊x⌋ : ℚ)
  min r (1 - r) < FLOAT_TO_INT_PREC

/-- The decimal digit character for `d < 10`. -/
def digitChar (d : ℕ) : Char := Char.ofNat ('0'.toNat + d)

/-- Fuel-driven helper for `natToDigits` (structural recursion so that the
kernel can evaluate it; the fuel never runs out when it starts above `n`). -/
def natToDigitsAux : ℕ → ℕ → List Char
  | 0, _ => []
  | fuel + 1, n =>
      if n < 10 then [digitChar n]
      else natToDigitsAux fuel (n / 10) ++ [digitChar (n % 10)]

/-- Decimal digit string of a natural number, most significant first. -/
def natToDigits (n : ℕ) : List Char := natToDigitsAux (n + 1) n

/-- Signed decimal rendering of an integer, as Python's `str(int)`. -/
def intToDecimal (n : ℤ) : String :=
  (if n < 0 then "-" else "") ++ String.mk (natToDigits n.natAbs)

/-- Python `str()` on a number.  `str` of an `int` is its signed decimal form;
`str` of a `float` whose value is an integer of magnitude below `10^16` is the
decimal form followed by `".0"`.  Other floats (non-integral or huge) render
in forms (`"0.5"`, `"1e+16"`, ...) that no claim exercises; they are mapped to
a placeholder tagged string. -/
def pyStr : PyNum → String
  | .pyInt n => intToDecimal n
  | .pyFloat q =>
      if q.den = 1 ∧ q.num.natAbs < 10 ^ 16 then intToDecimal q.num ++ ".0"
      else "<float:" ++ toString q.num ++ "/" ++ toString q.den ++ ">"

/-- Errors.  `nonFormatted msg` models `raise NonFormattedError(msg)`; the
`host*` constructors model uncontrolled Python exceptions escaping from the
interpreter's own code. -/
inductive Err where
  | nonFormatted (msg : String)
  | hostZeroDivision
  | hostValueError
  | hostIndexError
deriving DecidableEq, Repr

/-- Key of a `GulfOfMexicoMap` (`dict[Union[int, float, str], ...]`). -/
inductive MapKey where
  | num (n : PyNum)
  | str (s : String)
deriving DecidableEq, Repr

/-- Tags naming the Python callables stored in `BuiltinFunction.function`
for the entries of `BUILTIN_FUNCTION_KEYWORDS`. -/
inductive BuiltinTag where
  | dbIdentity | dbMap | dbToBoolean | dbToString | dbPrint | dbExit
  | dbToNumber | dbSignal | dbSleep | dbRead | dbWrite
  | dbRegexMatch | dbRegexFindall | dbRegexReplace
deriving DecidableEq, Repr

/-- The runtime value model of `builtin.py`.

* `num` — `GulfOfMexicoNumber` (mutable `value : Union[int, float]`).
* `str` — `GulfOfMexicoString`; the per-string indexer map
  `dict[float, tuple[int, str]]` is carried alongside the buffer.
* `list` — `GulfOfMexicoList`: the `values` sequence plus the
  `indexer : dict[float, int]` mapping user indices to real indices
  (insertion-ordered association list).
* `bool` — `GulfOfMexicoBoolean(Optional[bool])`, `none` = maybe.
* `map` — `GulfOfMexicoMap.self_dict`.
* `func` — `GulfOfMexicoFunction` (the statement-tree body lives outside
  this spec's scope and is not inspected by any conversion; only `args` and
  `is_async` are carried).
* `builtin` — `BuiltinFunction{arg_count, function, modifies_caller}` with
  the callable named by a tag.
* `obj` — `GulfOfMexicoObject.class_name` (its namespace of member bindings
  is never read by the operations under study and is not carried).

The `namespace` dicts of lists and strings (holding the `push`/`pop`/`length`
member `Name`s) are likewise never read by the indexing, push or conversion
code paths the claims concern, so they are not carried. -/
inductive Value where
  | num (n : PyNum)
  | str (s : String) (indexer : List (ℚ × (ℤ × String)))
  | list (values : List Value) (indexer : List (ℚ × ℤ))
  | bool (b : Option Bool)
  | undefined
  | blank
  | map (entries : List (MapKey × Value))
  | func (args : List String) (isAsync : Bool)
  | builtin (argCount : ℤ) (tag : BuiltinTag) (modifiesCaller : Bool)
  | obj (className : String)
  | keyword (kw : String)
  | promise (val : Option Value)
deriving Repr

/-! ### Python dict and list primitives

Python `dict`s preserve insertion order; `d[k] = v` overwrites in place when
`k` is already a key and appends otherwise.  Python sequence indexing accepts
negative indices (counting from the end) and raises `IndexError` outside
`[-len, len)`.  Slice assignment `xs[n:n] = [v]` clamps `n` into `[0, len]`. -/

/-- `k in d` / `d.get(k)` on an insertion-ordered dict. -/
def dictLookup {α : Type} : List (ℚ × α) → ℚ → Option α
  | [], _ => none
  | (k, v) :: rest, q => if k = q then some v else dictLookup rest q

/-- `d[k] = v` on an insertion-ordered dict. -/
def dictSet {α : Type} : List (ℚ × α) → ℚ → α → List (ℚ × α)
  | [], q, v => [(q, v)]
  | (k, w) :: rest, q, v =>
      if k = q then (q, v) :: rest else (k, w) :: dictSet rest q v

/-- `d.keys()`. -/
def dictKeys {α : Type} (d : List (ℚ × α)) : List ℚ := d.map Prod.fst

/-- `max(d.keys())`, `none` when the dict is empty (Python raises
`ValueError: max() arg is an empty sequence`). -/
def dictMaxKey {α : Type} (d : List (ℚ × α)) : Option ℚ := (dictKeys d).max?

/-- Resolve a Python sequence index: negative indices count from the end. -/
def pyIdx (len : ℕ) (i : ℤ) : Option ℕ :=
  let j := if i < 0 then i + len else i
  if 0 ≤ j ∧ j < len then some j.toNat else none

/-- `xs[i]` on a Python list. -/
def pyListGet {α : Type} (xs : List α) (i : ℤ) : Except Err α :=
  match pyIdx xs.length i with
  | some j => (xs.get? j).elim (.error .hostIndexError) .ok
  | none => .error .hostIndexError

/-- `xs[i] = v` on a Python list. -/
def pyListSet {α : Type} (xs : List α) (i : ℤ) (v : α) : Except Err (List α) :=
  match pyIdx xs.length i with
  | some j => .ok (xs.set j v)
  | none => .error .hostIndexError

/-- `xs[n:n] = [v]` on a Python list (slice bounds clamp into `[0, len]`). -/
def pySliceInsert {α : Type} (xs : List α) (n : ℤ) (v : α) : List α :=
  let m : ℕ :=
    if n < 0 then (max (n + xs.length) 0).toNat
    else (min n (xs.length : ℤ)).toNat
  xs.take m ++ [v] ++ xs.drop m

/-! ### `GulfOfMexicoList` -/

/-- The state of a `GulfOfMexicoList`: the `values` sequence and the
`indexer : dict[float, int]` from user indices to real indices. -/
structure GoMList where
  values : List Value
  indexer : List (ℚ × ℤ)
deriving Repr

/-- `GulfOfMexicoList.__post_init__`: `for index in range(-1, len(values) - 1):
indexer[index] = index`, i.e. keys `-1, 0, …, len - 2`, each mapped to
itself. -/
def GulfOfMexicoList.post_init_indexer (len : ℕ) : List (ℚ × ℤ) :=
  (List.range len).map (fun i : ℕ => ((((i : ℤ) - 1 : ℤ) : ℚ), (i : ℤ) - 1))

/-- A freshly constructed `GulfOfMexicoList(values)`. -/
def mkList (vs : List Value) : GoMList :=
  ⟨vs, GulfOfMexicoList.post_init_indexer vs.length⟩

/-- `GulfOfMexicoList.access_index` (builtin.py lines 212–225). -/
def GulfOfMexicoList.access_index (self : GoMList) (index : Value) :
    Except Err Value :=
  match index with
  | .num n =>
      let k := pyVal n
      if ¬(-1 ≤ k ∧ k ≤ (self.values.length : ℚ) - 1) then
        .error (.nonFormatted "Indexing out of list bounds.")
      else
        match dictLookup self.indexer k with
        | none => .error (.nonFormatted "No value assigned to that index")
        | some realIndex => pyListGet self.values (pyRound (realIndex : ℚ))
  | _ => .error (.nonFormatted "Cannot index a list with a non-number value.")

/-- `GulfOfMexicoList.assign_index` (builtin.py lines 227–248).
In the fractional branch the insertion point is
`round(max((key + 2) // 1, 0))` and every user index strictly greater than
the key has its real index shifted by one. -/
def GulfOfMexicoList.assign_index (self : GoMList) (index val : Value) :
    Except Err GoMList :=
  match index with
  | .num n =>
      let k := pyVal n
      if (dictLookup self.indexer k).isSome then
        if ¬(-1 ≤ k ∧ k ≤ (self.values.length : ℚ) - 1) then
          .error (.nonFormatted "Indexing out of list bounds.")
        else
          match pyListSet self.values (pyRound k) val with
          | .error e => .error e
          | .ok values' =>
              .ok ⟨values', dictSet self.indexer ((pyRound k : ℤ) : ℚ) (pyRound k)⟩
      else
        if ¬(-1 ≤ k ∧ k ≤ (self.values.length : ℚ) - 1) then
          .error (.nonFormatted "Indexing out of list bounds.")
        else
          let nearest_int_down : ℤ := pyRound (max ((⌊k + 2⌋ : ℚ)) 0)
          let values' := pySliceInsert self.values nearest_int_down val
          let d1 := dictSet self.indexer k (nearest_int_down - 1)
          let d2 := d1.map (fun e => if e.1 > k then (e.1, e.2 + 1) else e)
          .ok ⟨values', d2⟩
  | _ => .error (.nonFormatted "Cannot index a list with a non-number value.")

/-- `db_list_push` (builtin.py lines 81–84): the new user index is
`max(indexer.keys()) + 1` (a `ValueError` escapes on an empty indexer) and it
maps to `len(values) - 1`; then the value is appended. -/
def db_list_push (self : GoMList) (val : Value) : Except Err GoMList :=
  match dictMaxKey self.indexer with
  | none => .error .hostValueError
  | some m =>
      .ok ⟨self.values ++ [val],
           dictSet self.indexer (m + 1) ((self.values.length : ℤ) - 1)⟩

/-! ### Python string primitives -/

/-- `s[i]` on a Python string (negative indices count from the end). -/
def pyStrGet (s : String) (i : ℤ) : Except Err Char :=
  match pyIdx s.length i with
  | some j => (s.toList.get? j).elim (.error .hostIndexError) .ok
  | none => .error .hostIndexError

/-- Clamp a slice bound into `[0, len]` as Python slices do. -/
def pyClampIndex (len : ℕ) (i : ℤ) : ℕ :=
  if i < 0 then (max (i + len) 0).toNat else (min i (len : ℤ)).toNat

/-- `s[:i]` on a Python string. -/
def pyStrTake (s : String) (i : ℤ) : String :=
  String.mk (s.toList.take (pyClampIndex s.length i))

/-- `s[i:]` on a Python string. -/
def pyStrDrop (s : String) (i : ℤ) : String :=
  String.mk (s.toList.drop (pyClampIndex s.length i))

/-- Value of a decimal digit character. -/
def charDigit (c : Char) : Option ℕ :=
  if '0' ≤ c ∧ c ≤ '9' then some (c.toNat - '0'.toNat) else none

/-- Numeric value of a digit string (used only on all-digit strings). -/
def natOfDigits (cs : List Char) : ℕ :=
  cs.foldl (fun a c => a * 10 + (c.toNat - '0'.toNat)) 0

/-- Python `int(s)` restricted to nonempty all-digit strings, the only shape
the number-assignment code feeds it (its input is built from a digit string
that had `.` and `-` removed, with one digit substituted or spliced in);
anything else raises `ValueError`. -/
def pyIntParse (s : String) : Except Err ℤ :=
  let cs := s.toList
  if cs ≠ [] ∧ cs.all (fun c => (charDigit c).isSome) then
    .ok (natOfDigits cs : ℤ)
  else .error .hostValueError

/-! ### `GulfOfMexicoNumber` digit indexing -/

/-- `GulfOfMexicoNumber._get_self_str`:
`str(self.value).replace(".", "").replace("-", "")`. -/
def GulfOfMexicoNumber.get_self_str (n : PyNum) : String :=
  String.mk ((pyStr n).toList.filter (fun c => c ≠ '.' ∧ c ≠ '-'))

/-- `GulfOfMexicoNumber.access_index` (builtin.py lines 258–266): requires a
numeric, integral index within `[-1, len(str)-1]` and returns
`int(self_val_str[round(index) + 1])` as a number. -/
def GulfOfMexicoNumber.access_index (self : PyNum) (index : Value) :
    Except Err Value :=
  let s := GulfOfMexicoNumber.get_self_str self
  match index with
  | .num m =>
      let k := pyVal m
      if ¬ is_int k then
        .error (.nonFormatted "Expected integer for number indexing.")
      else if ¬(-1 ≤ k ∧ k ≤ (s.length : ℚ) - 1) then
        .error (.nonFormatted "Indexing out of number bounds.")
      else
        match pyStrGet s (pyRound k + 1) with
        | .error e => .error e
        | .ok c =>
            match charDigit c with
            | some d => .ok (.num (.pyInt d))
            | none => .error .hostValueError
  | _ => .error (.nonFormatted "Cannot index a number with a non-number value.")

/-- `GulfOfMexicoNumber.assign_index` (builtin.py lines 268–298).  The very
first computation is `sign = self.value / abs(self.value)`, so a receiver
holding `0` raises an uncontrolled `ZeroDivisionError` before any check.
Because `sign` is a Python `float` (true division), the mutated value
`sign * int(...)` is always a `float`. -/
def GulfOfMexicoNumber.assign_index (self : PyNum) (index val : Value) :
    Except Err PyNum :=
  let s := GulfOfMexicoNumber.get_self_str self
  if pyVal self = 0 then .error .hostZeroDivision
  else
    let sign : ℚ := pyVal self / |pyVal self|
    if ¬ is_int (pyVal self) then
      .error (.nonFormatted "Cannot assign into a non-interger number.")
    else
      match index with
      | .num m =>
          let k := pyVal m
          match val with
          | .num w =>
              if ¬(is_int (pyVal w) ∧ 0 ≤ pyVal w ∧ pyVal w ≤ 9) then
                .error
                  (.nonFormatted "Cannot assign into a number with a non-integer value.")
              else if is_int k then
                if ¬(-1 ≤ k ∧ k ≤ (s.length : ℚ) - 1) then
                  .error (.nonFormatted "Indexing out of number bounds.")
                else
                  let index_num : ℤ := pyRound k + 1
                  match pyIntParse
                      (pyStrTake s index_num ++ intToDecimal (pyRound (pyVal w)) ++
                        pyStrDrop s (index_num + 1)) with
                  | .error e => .error e
                  | .ok z => .ok (.pyFloat (sign * z))
              else
                let index_num : ℤ := pyRound (max ((⌊k + 2⌋ : ℚ)) 0)
                match pyIntParse
                    (pyStrTake s index_num ++ intToDecimal (pyRound (pyVal w)) ++
                      pyStrDrop s index_num) with
                | .error e => .error e
                | .ok z => .ok (.pyFloat (sign * z))
          | _ =>
              .error
                (.nonFormatted "Cannot assign into a number with a non-integer value.")
      | _ => .error (.nonFormatted "Cannot index a number with a non-number value.")

/-! ### Conversions (`db_to_boolean`, `db_to_string`, `db_to_number`) -/

/-- The whitespace characters removed by Python's `str.strip()` (the ASCII
ones; no claim exercises non-ASCII whitespace). -/
def isPySpace (c : Char) : Bool :=
  c = ' ' ∨ c = '\t' ∨ c = '\n' ∨ c = '\r' ∨ c = '\x0b' ∨ c = '\x0c'

/-- Python `s.strip()`. -/
def pyStrip (s : String) : String :=
  String.mk (((s.toList.dropWhile isPySpace).reverse.dropWhile isPySpace).reverse)

/-- `db_to_boolean` (builtin.py lines 638–659).  The `match` in the source
leaves `return_bool = None` for the unmatched variants (`BuiltinFunction`,
`GulfOfMexicoPromise`, `GulfOfMexicoSpecialBlankValue`). -/
def db_to_boolean (val : Value) : Value :=
  match val with
  | .str s _ =>
      .bool (if pyStrip s ≠ "" then some true
             else if s.length ≠ 0 then none else some false)
  | .num n =>
      .bool (if pyRound (pyVal n) ≠ 0 then some true
             else if |pyVal n| > FLOAT_TO_INT_PREC then none else some false)
  | .list vs _ => .bool (some (!vs.isEmpty))
  | .map es => .bool (some (!es.isEmpty))
  | .bool b => .bool b
  | .undefined => .bool (some false)
  | .func _ _ => .bool none
  | .obj _ => .bool none
  | .keyword _ => .bool none
  | .builtin _ _ _ => .bool none
  | .promise _ => .bool none
  | .blank => .bool none

/-- `f"{k}"` for a map key. -/
def mapKeyStr : MapKey → String
  | .num n => pyStr n
  | .str s => s

mutual

/-- `db_to_string` (builtin.py lines 662–687).  Total: every variant returns
a string.  The unmatched variants (`BuiltinFunction`, `GulfOfMexicoPromise`,
`GulfOfMexicoSpecialBlankValue`) fall back to Python's `str(val)` dataclass
repr, whose exact text embeds memory addresses; it is modelled as a fixed
per-class placeholder (no claim inspects it). -/
def db_to_string (val : Value) : String :=
  match val with
  | .str s _ => s
  | .list vs _ => "[" ++ String.intercalate ", " (db_to_string_values vs) ++ "]"
  | .bool b =>
      match b with
      | some true => "true"
      | none => "maybe"
      | some false => "false"
  | .num n => pyStr n
  | .func args _ => "<function (" ++ String.intercalate ", " args ++ ")>"
  | .obj cn => "<object " ++ cn ++ ">"
  | .undefined => "undefined"
  | .keyword kw => kw
  | .map es => "\x7b" ++ String.intercalate ", " (db_to_string_entries es) ++ "\x7d"
  | .builtin _ _ _ => "BuiltinFunction(...)"
  | .promise _ => "GulfOfMexicoPromise(...)"
  | .blank => "GulfOfMexicoSpecialBlankValue()"

/-- `[db_to_string(v).value for v in val.values]`. -/
def db_to_string_values : List Value → List String
  | [] => []
  | v :: vs => db_to_string v :: db_to_string_values vs

/-- `[f"{k}: {db_to_string(v).value}" for k, v in val.self_dict.items()]`. -/
def db_to_string_entries : List (MapKey × Value) → List String
  | [] => []
  | (k, v) :: es => (mapKeyStr k ++ ": " ++ db_to_string v) :: db_to_string_entries es

end

/-- Split a character list at the first `'.'`. -/
def splitDot : List Char → List Char × Option (List Char)
  | [] => ([], none)
  | c :: rest =>
      if c = '.' then ([], some rest)
      else
        let p := splitDot rest
        (c :: p.1, p.2)

/-- Strip one leading sign character, returning whether it was `'-'`. -/
def stripSign : List Char → Bool × List Char
  | [] => (false, [])
  | c :: rest =>
      if c = '-' then (true, rest)
      else if c = '+' then (false, rest)
      else (false, c :: rest)

/-- Python `float(s)` on the fragment the interpreter feeds it: an optional
sign, then decimal digits with at most one dot (`"123"`, `"-5.0"`, `".5"`,
`"2."`, ...).  Exponents, `inf`/`nan`, underscores and surrounding whitespace
are accepted by the host but exercised by no claim, so they are outside the
modelled fragment and map to `none` (= `ValueError`). -/
def pyFloatParse (s : String) : Option ℚ :=
  let signAndRest := stripSign s.toList
  let p := splitDot signAndRest.2
  let intPart := p.1
  let fracPart := (p.2).getD []
  if (intPart ++ fracPart ≠ []) ∧
      (intPart ++ fracPart).all (fun c => (charDigit c).isSome) then
    let mag : ℚ :=
      (natOfDigits intPart : ℚ) + (natOfDigits fracPart : ℚ) / 10 ^ fracPart.length
    some (if signAndRest.1 then -mag else mag)
  else none

/-- Python `type(val).__name__`. -/
def typeName : Value → String
  | .num _ => "GulfOfMexicoNumber"
  | .str _ _ => "GulfOfMexicoString"
  | .list _ _ => "GulfOfMexicoList"
  | .bool _ => "GulfOfMexicoBoolean"
  | .undefined => "GulfOfMexicoUndefined"
  | .blank => "GulfOfMexicoSpecialBlankValue"
  | .map _ => "GulfOfMexicoMap"
  | .func _ _ => "GulfOfMexicoFunction"
  | .builtin _ _ _ => "BuiltinFunction"
  | .obj _ => "GulfOfMexicoObject"
  | .keyword _ => "GulfOfMexicoKeyword"
  | .promise _ => "GulfOfMexicoPromise"

/-- `db_to_number` (builtin.py lines 700–725).  Partial: it raises
`NonFormattedError` on non-empty lists and maps and on every variant with no
match case (functions, builtins, objects, keywords, promises, blanks), and a
host `ValueError` escapes from `float(...)` on non-numeric strings.
A boolean converts to the float `1.0` / `0.0` / `0.5` (the `+ ... * 0.5`
makes the result a `float` in every branch). -/
def db_to_number (val : Value) : Except Err PyNum :=
  match val with
  | .num n => .ok n
  | .str s _ =>
      match pyFloatParse s with
      | some q => .ok (.pyFloat q)
      | none => .error .hostValueError
  | .undefined => .ok (.pyInt 0)
  | .bool b =>
      .ok (.pyFloat (match b with
        | some true => 1
        | some false => 0
        | none => 1 / 2))
  | .list vs _ =>
      if vs.isEmpty then .ok (.pyInt 0)
      else .error (.nonFormatted "Cannot turn a non-empty list into a number.")
  | .map es =>
      if es.isEmpty then .ok (.pyInt 0)
      else .error (.nonFormatted "Cannot turn a non-empty map into a number.")
  | v => .error (.nonFormatted ("Cannot turn type " ++ typeName v ++ " into a number."))

/-! ### `Variable` and `VariableLifetime` -/

/-- `VariableLifetime` (builtin.py lines 451–460).  Wall-clock times are
rationals. -/
structure VariableLifetime where
  value : Value
  lines_left : ℤ
  confidence : ℤ
  can_be_reset : Bool
  can_edit_value : Bool
  creation_time : ℚ
  is_temporal : Bool
  temporal_duration : ℚ
deriving Repr

/-- `Variable` (builtin.py lines 463–533). -/
structure Variable where
  name : String
  lifetimes : List VariableLifetime
  prev_values : List Value
deriving Repr

/-- The loop of `Variable.add_lifetime`: insert at the first position `i`
with `i == len(lifetimes)` or `lifetimes[i].confidence >= confidence`. -/
def insertLifetime (new : VariableLifetime) : List VariableLifetime →
    List VariableLifetime
  | [] => [new]
  | l :: rest =>
      if l.confidence ≥ new.confidence then new :: l :: rest
      else l :: insertLifetime new rest

/-- `Variable.add_lifetime` (builtin.py lines 491–516): insert at the first
position whose confidence is `≥` the new one; when that position is `0` and
the list was non-empty, first append the old head's value (`self.value`) to
`prev_values`.  `now` stands for `time.time()` at the call. -/
def Variable.add_lifetime (self : Variable) (value : Value) (confidence : ℤ)
    (duration : ℤ) (can_be_reset can_edit_value : Bool) (is_temporal : Bool)
    (temporal_duration : ℚ) (now : ℚ) : Variable :=
  let new : VariableLifetime :=
    ⟨value, duration, confidence, can_be_reset, can_edit_value, now,
      is_temporal, temporal_duration⟩
  { self with
    lifetimes := insertLifetime new self.lifetimes
    prev_values :=
      match self.lifetimes with
      | [] => self.prev_values
      | l :: _ =>
          if l.confidence ≥ confidence then self.prev_values ++ [l.value]
          else self.prev_values }

/-- `Variable.clear_outdated_lifetimes` (builtin.py lines 518–527): delete
every lifetime with `lines_left == 0` or, when temporal, whose age
`now - creation_time` has reached `temporal_duration`. -/
def Variable.clear_outdated_lifetimes (self : Variable) (now : ℚ) : Variable :=
  { self with
    lifetimes :=
      self.lifetimes.filter (fun l =>
        !(l.lines_left == 0 ||
          (l.is_temporal && decide (now - l.creation_time ≥ l.temporal_duration)))) }

/-- `Variable.value`: the head lifetime's value; reading an empty variable
raises `NonFormattedError("Variable is undefined.")`. -/
def Variable.value (self : Variable) : Except Err Value :=
  match self.lifetimes with
  | l :: _ => .ok l.value
  | [] => .error (.nonFormatted "Variable is undefined.")

/-- Position at which `add_lifetime`'s loop inserts: the first `i` with
`i = len(lifetimes)` or `lifetimes[i].confidence ≥ confidence`. -/
def insertPos (c : ℤ) : List VariableLifetime → ℕ
  | [] => 0
  | l :: rest => if l.confidence ≥ c then 0 else insertPos c rest + 1

/-- `lifetimes` sorted non-decreasingly by confidence. -/
def confSorted (ls : List VariableLifetime) : Prop :=
  List.Pairwise (fun a b => a.confidence ≤ b.confidence) ls

/-- The head lifetime's confidence is `≤` every present confidence. -/
def headConfLe (ls : List VariableLifetime) : Prop :=
  ∀ hd ∈ ls.head?, ∀ l ∈ ls, hd.confidence ≤ l.confidence

/-! ### `BUILTIN_FUNCTION_KEYWORDS` -/

/-- `Name` (builtin.py lines 445–448). -/
structure NameBinding where
  name : String
  value : Value
deriving Repr

/-- `BUILTIN_FUNCTION_KEYWORDS` (builtin.py lines 888–904), with each
`BuiltinFunction(arg_count, function)` carried as `Value.builtin`
(`modifies_caller` defaults to `False`). -/
def BUILTIN_FUNCTION_KEYWORDS : List (String × NameBinding) :=
  [("new", ⟨"new", .builtin 1 .dbIdentity false⟩),
   ("current", ⟨"current", .builtin 1 .dbIdentity false⟩),
   ("Map", ⟨"Map", .builtin 0 .dbMap false⟩),
   ("Boolean", ⟨"Boolean", .builtin 1 .dbToBoolean false⟩),
   ("String", ⟨"String", .builtin 1 .dbToString false⟩),
   ("print", ⟨"print", .builtin (-1) .dbPrint false⟩),
   ("exit", ⟨"exit", .builtin 0 .dbExit false⟩),
   ("Number", ⟨"Number", .builtin 1 .dbToNumber false⟩),
   ("use", ⟨"use", .builtin 1 .dbSignal false⟩),
   ("sleep", ⟨"sleep", .builtin 1 .dbSleep false⟩),
   ("read", ⟨"read", .builtin (-1) .dbRead false⟩),
   ("write", ⟨"write", .builtin (-1) .dbWrite false⟩),
   ("regex_match", ⟨"regex_match", .builtin 1 .dbRegexMatch false⟩),
   ("regex_findall", ⟨"regex_findall", .builtin 1 .dbRegexFindall false⟩),
   ("regex_replace", ⟨"regex_replace", .builtin 1 .dbRegexReplace false⟩)]

/-- The registered arity (`BuiltinFunction.arg_count`) of a preloaded
builtin identifier. -/
def builtinArity (s : String) : Option ℤ :=
  match BUILTIN_FUNCTION_KEYWORDS.lookup s with
  | some nb =>
      match nb.value with
      | .builtin a _ _ => some a
      | _ => none
  | none => none

/-! ## Helper lemmas -/

theorem is_int_intCast (n : ℤ) : is_int (n : ℚ) = true := by
  simp only [is_int, Int.floor_intCast, FLOAT_TO_INT_PREC, sub_self]
  norm_num

theorem pyRound_intCast (n : ℤ) : pyRound (n : ℚ) = n := by
  simp only [pyRound, Int.floor_intCast, sub_self]
  norm_num

theorem digitChar_val (d : ℕ) (h : d < 10) : (digitChar d).toNat - '0'.toNat = d := by
  interval_cases d <;> decide

theorem digitChar_isDigit (d : ℕ) (h : d < 10) : (charDigit (digitChar d)).isSome := by
  interval_cases d <;> decide

theorem digitChar_ne (d : ℕ) (h : d < 10) :
    digitChar d ≠ '.' ∧ digitChar d ≠ '-' ∧ digitChar d ≠ '+' := by
  interval_cases d <;> decide

theorem natToDigitsAux_mem (f : ℕ) :
    ∀ n c, c ∈ natToDigitsAux f n → ∃ d, d < 10 ∧ c = digitChar d := by
  induction f with
  | zero => intro n c hc; simp [natToDigitsAux] at hc
  | succ f ih =>
      intro n c hc
      by_cases h : n < 10
      · simp [natToDigitsAux, h] at hc
        exact ⟨n, h, hc⟩
      · simp [natToDigitsAux, h] at hc
        rcases hc with hc | hc
        · exact ih _ _ hc
        · exact ⟨n % 10, Nat.mod_lt _ (by omega), hc⟩

theorem natOfDigits_append_single (a : List Char) (c : Char) :
    natOfDigits (a ++ [c]) = natOfDigits a * 10 + (c.toNat - '0'.toNat) := by
  simp [natOfDigits, List.foldl_append]

theorem natOfDigits_natToDigitsAux (f : ℕ) :
    ∀ n, n < f → natOfDigits (natToDigitsAux f n) = n := by
  induction f with
  | zero => intro n h; omega
  | succ f ih =>
      intro n h
      by_cases h10 : n < 10
      · have : natOfDigits [digitChar n] = n := by
          simp only [natOfDigits, List.foldl_cons, List.foldl_nil, Nat.zero_mul,
            Nat.zero_add]
          exact digitChar_val n h10
        simpa [natToDigitsAux, h10] using this
      · have hdiv : n / 10 < n := Nat.div_lt_self (by omega) (by omega)
        have hih := ih (n / 10) (by omega)
        have hmod := digitChar_val (n % 10) (Nat.mod_lt _ (by omega))
        simp only [natToDigitsAux, h10, if_false, natOfDigits_append_single, hih,
          hmod]
        omega

theorem natToDigitsAux_ne_nil (f : ℕ) :
    ∀ n, n < f → natToDigitsAux f n ≠ [] := by
  induction f with
  | zero => intro n h; omega
  | succ f _ =>
      intro n _
      by_cases h10 : n < 10 <;> simp [natToDigitsAux, h10]

theorem natOfDigits_natToDigits (n : ℕ) : natOfDigits (natToDigits n) = n :=
  natOfDigits_natToDigitsAux (n + 1) n (by omega)

theorem natToDigits_ne_nil (n : ℕ) : natToDigits n ≠ [] :=
  natToDigitsAux_ne_nil (n + 1) n (by omega)

theorem natToDigits_mem (n : ℕ) (c : Char) (hc : c ∈ natToDigits n) :
    ∃ d, d < 10 ∧ c = digitChar d :=
  natToDigitsAux_mem (n + 1) n c hc

theorem splitDot_append (cs rest : List Char) (h : '.' ∉ cs) :
    splitDot (cs ++ '.' :: rest) = (cs, some rest) := by
  induction cs with
  | nil => simp [splitDot]
  | cons c cs ih =>
      have hc : c ≠ '.' := by intro hc; exact h (by simp [hc])
      have hmem : '.' ∉ cs := by intro hm; exact h (by simp [hm])
      simp [splitDot, hc, ih hmem]

theorem stripSign_of_head_digit (c : Char) (cs : List Char)
    (h1 : c ≠ '-') (h2 : c ≠ '+') : stripSign (c :: cs) = (false, c :: cs) := by
  simp [stripSign, h1, h2]

theorem natToDigits_not_dot (n : ℕ) : '.' ∉ natToDigits n := by
  intro hm
  obtain ⟨d, hd, hc⟩ := natToDigits_mem n '.' hm
  exact (digitChar_ne d hd).1 hc.symm

theorem natToDigits_all_digits (n : ℕ) :
    (natToDigits n).all (fun c => (charDigit c).isSome) = true := by
  rw [List.all_eq_true]
  intro c hc
  obtain ⟨d, hd, hc⟩ := natToDigits_mem n c hc
  rw [hc]
  exact digitChar_isDigit d hd

/-- `float(str(n) + ".0") = n` for every integer `n`, through the model's
decimal renderer and parser. -/
theorem pyFloatParse_decimal (n : ℤ) :
    pyFloatParse (intToDecimal n ++ ".0") = some (n : ℚ) := by
  have hsplit :
      splitDot (natToDigits n.natAbs ++ '.' :: ['0']) =
        (natToDigits n.natAbs, some ['0']) :=
    splitDot_append _ _ (natToDigits_not_dot n.natAbs)
  have hne : natToDigits n.natAbs ≠ [] := natToDigits_ne_nil n.natAbs
  have hne2 : natToDigits n.natAbs ++ ['0'] ≠ [] := by simp
  have hall :
      ((natToDigits n.natAbs) ++ ['0']).all (fun c => (charDigit c).isSome) = true := by
    rw [List.all_append, natToDigits_all_digits]
    decide
  have hhead :
      stripSign (natToDigits n.natAbs ++ '.' :: ['0']) =
        (false, natToDigits n.natAbs ++ '.' :: ['0']) := by
    obtain ⟨c, cs, hcons⟩ := List.exists_cons_of_ne_nil hne
    obtain ⟨d, hd, hc⟩ := natToDigits_mem n.natAbs c (by rw [hcons]; simp)
    rw [hcons, List.cons_append]
    exact stripSign_of_head_digit _ _
      (by rw [hc]; exact (digitChar_ne d hd).2.1)
      (by rw [hc]; exact (digitChar_ne d hd).2.2)
  have hofd : natOfDigits (natToDigits n.natAbs) = n.natAbs :=
    natOfDigits_natToDigits n.natAbs
  have hzero : natOfDigits ['0'] = 0 := rfl
  by_cases hn : n < 0
  · have hcs : (intToDecimal n ++ ".0").toList =
        '-' :: (natToDigits n.natAbs ++ '.' :: ['0']) := by
      simp [intToDecimal, hn]
    have hminus :
        stripSign ('-' :: (natToDigits n.natAbs ++ '.' :: ['0'])) =
          (true, natToDigits n.natAbs ++ '.' :: ['0']) := by
      simp [stripSign]
    rw [pyFloatParse, hcs]
    simp only [hminus, hsplit, Option.getD_some, List.length_cons,
      List.length_nil, if_true]
    rw [if_pos ⟨hne2, hall⟩]
    rw [hofd, hzero]
    rw [Int.cast_natAbs]
    have habs : |n| = -n := abs_of_neg hn
    push_cast [habs]
    ring_nf
  · have hcs : (intToDecimal n ++ ".0").toList =
        natToDigits n.natAbs ++ '.' :: ['0'] := by
      simp [intToDecimal, hn]
    rw [pyFloatParse, hcs]
    simp only [hhead, hsplit, Option.getD_some, List.length_cons,
      List.length_nil, if_true]
    rw [if_pos ⟨hne2, hall⟩]
    rw [hofd, hzero]
    rw [Int.cast_natAbs]
    have habs : |n| = n := abs_of_nonneg (not_lt.mp hn)
    simp only [Bool.false_eq_true, if_false]
    push_cast [habs]
    ring_nf

theorem get_self_str_pyInt (n : ℤ) :
    GulfOfMexicoNumber.get_self_str (.pyInt n) = String.mk (natToDigits n.natAbs) := by
  have hkeep :
      (natToDigits n.natAbs).filter (fun c => decide (c ≠ '.' ∧ c ≠ '-')) =
        natToDigits n.natAbs := by
    rw [List.filter_eq_self]
    intro c hc
    obtain ⟨d, hd, hceq⟩ := natToDigits_mem n.natAbs c hc
    rw [hceq]
    simp [(digitChar_ne d hd).1, (digitChar_ne d hd).2.1]
  rw [GulfOfMexicoNumber.get_self_str]
  by_cases hn : n < 0
  · have hcs : (pyStr (.pyInt n)).toList = '-' :: natToDigits n.natAbs := by
      simp [pyStr, intToDecimal, hn]
    rw [hcs]
    rw [List.filter_cons_of_neg (by decide)]
    rw [hkeep]
  · have hcs : (pyStr (.pyInt n)).toList = natToDigits n.natAbs := by
      simp [pyStr, intToDecimal, hn]
    rw [hcs, hkeep]

theorem le_foldl_max (bs : List ℚ) : ∀ a : ℚ, a ≤ bs.foldl max a := by
  induction bs with
  | nil => intro a; simp
  | cons b bs ih => intro a; exact le_trans (le_max_left a b) (ih (max a b))

theorem mem_le_foldl_max (bs : List ℚ) : ∀ (a x : ℚ), x ∈ bs → x ≤ bs.foldl max a := by
  induction bs with
  | nil => intro a x hx; simp at hx
  | cons b bs ih =>
      intro a x hx
      rcases List.mem_cons.mp hx with rfl | hx
      · exact le_trans (le_max_right a x) (le_foldl_max bs _)
      · exact ih _ x hx

theorem max?_spec (l : List ℚ) (m : ℚ) (h : l.max? = some m) :
    ∀ x ∈ l, x ≤ m := by
  cases l with
  | nil => simp [List.max?] at h
  | cons a as =>
      simp [List.max?] at h
      intro x hx
      rw [← h]
      rcases List.mem_cons.mp hx with rfl | hx
      · exact le_foldl_max as x
      · exact mem_le_foldl_max as a x hx

theorem mem_dictKeys_dictSet {α : Type} (d : List (ℚ × α)) (k : ℚ) (v : α) :
    k ∈ dictKeys (dictSet d k v) := by
  induction d with
  | nil => simp [dictSet, dictKeys]
  | cons e d ih =>
      rcases e with ⟨k1, w⟩
      by_cases he : k1 = k
      · simp [dictSet, he, dictKeys]
      · simpa [dictSet, he, dictKeys] using Or.inr ih

theorem insertPos_le_length (c : ℤ) (ls : List VariableLifetime) :
    insertPos c ls ≤ ls.length := by
  induction ls with
  | nil => simp [insertPos]
  | cons l rest ih =>
      by_cases h : l.confidence ≥ c
      · simp [insertPos, h]
      · simp only [insertPos, if_neg h, List.length_cons]
        omega

theorem insertPos_zero_iff (c : ℤ) (l : VariableLifetime)
    (rest : List VariableLifetime) :
    insertPos c (l :: rest) = 0 ↔ c ≤ l.confidence := by
  by_cases h : l.confidence ≥ c <;> simp [insertPos, h]

theorem insertLifetime_eq_take_drop (new : VariableLifetime)
    (ls : List VariableLifetime) :
    insertLifetime new ls =
      ls.take (insertPos new.confidence ls) ++ new ::
        ls.drop (insertPos new.confidence ls) := by
  induction ls with
  | nil => simp [insertLifetime, insertPos]
  | cons l rest ih =>
      by_cases h : l.confidence ≥ new.confidence <;>
        simp [insertLifetime, insertPos, h, ih]

theorem insertPos_hit (c : ℤ) (ls : List VariableLifetime) :
    insertPos c ls = ls.length ∨
      ∃ l, ls.get? (insertPos c ls) = some l ∧ c ≤ l.confidence := by
  induction ls with
  | nil => simp [insertPos]
  | cons l rest ih =>
      by_cases h : l.confidence ≥ c
      · exact Or.inr ⟨l, by simp [insertPos, h], h⟩
      · rcases ih with ih | ⟨l', hl', hc⟩
        · left; simp [insertPos, h, ih]
        · right; exact ⟨l', by simpa [insertPos, h] using hl', hc⟩

theorem insertPos_min (c : ℤ) (ls : List VariableLifetime) :
    ∀ j, j < insertPos c ls → ∀ l, ls.get? j = some l → l.confidence < c := by
  induction ls with
  | nil => simp [insertPos]
  | cons l rest ih =>
      by_cases h : l.confidence ≥ c
      · simp [insertPos, h]
      · intro j hj l' hl'
        cases j with
        | zero =>
            simp at hl'
            rw [← hl']
            omega
        | succ j =>
            simp only [insertPos, h, if_false] at hj
            exact ih j (by omega) l' (by simpa using hl')

theorem mem_insertLifetime (new x : VariableLifetime) (ls : List VariableLifetime) :
    x ∈ insertLifetime new ls ↔ x = new ∨ x ∈ ls := by
  induction ls with
  | nil => simp [insertLifetime]
  | cons l rest ih =>
      by_cases h : l.confidence ≥ new.confidence
      · simp [insertLifetime, h]
      · simp [insertLifetime, h, ih]
        tauto

theorem confSorted_insertLifetime (new : VariableLifetime)
    (ls : List VariableLifetime) (hs : confSorted ls) :
    confSorted (insertLifetime new ls) := by
  induction ls with
  | nil => simp [insertLifetime, confSorted]
  | cons l rest ih =>
      rcases List.pairwise_cons.mp hs with ⟨hl, hrest⟩
      by_cases h : l.confidence ≥ new.confidence
      · rw [confSorted, insertLifetime, if_pos h]
        refine List.pairwise_cons.mpr ⟨?_, hs⟩
        intro b hb
        rcases List.mem_cons.mp hb with rfl | hb
        · exact h
        · exact le_trans h (hl b hb)
      · rw [confSorted, insertLifetime, if_neg h]
        refine List.pairwise_cons.mpr ⟨?_, ih hrest⟩
        intro b hb
        rcases (mem_insertLifetime new b rest).mp hb with rfl | hb
        · omega
        · exact hl b hb

theorem headConfLe_of_confSorted (ls : List VariableLifetime)
    (hs : confSorted ls) : headConfLe ls := by
  cases ls with
  | nil => intro hd h; simp at h
  | cons l rest =>
      intro hd hhd x hx
      simp at hhd
      rw [← hhd]
      rcases List.mem_cons.mp hx with rfl | hx
      · exact le_refl _
      · exact (List.pairwise_cons.mp hs).1 x hx

theorem confSorted_filter (ls : List VariableLifetime)
    (p : VariableLifetime → Bool) (hs : confSorted ls) :
    confSorted (ls.filter p) :=
  List.Pairwise.sublist (List.filter_sublist ls) hs

theorem pyStrip_all_space (s : String) (h : s.toList.all isPySpace = true) :
    pyStrip s = "" := by
  rw [pyStrip]
  have hd : s.toList.dropWhile isPySpace = [] :=
    List.dropWhile_eq_nil_iff.mpr (fun x hx => List.all_eq_true.mp h x hx)
  rw [hd]
  rfl

theorem pyRound_zero : pyRound 0 = 0 := by
  rw [pyRound]
  norm_num

theorem string_length_ne_zero (s : String) (h : s ≠ "") : s.length ≠ 0 := by
  intro h0
  apply h
  cases s with
  | mk data =>
      cases data with
      | nil => rfl
      | cons c cs => simp [String.length] at h0

theorem charDigit_digitChar (d : ℕ) (h : d < 10) :
    charDigit (digitChar d) = some d := by
  interval_cases d <;> decide

theorem string_mk_length (l : List Char) : (String.mk l).length = l.length := rfl

theorem pyIdx_pos (len : ℕ) (i : ℤ) (h0 : 0 ≤ i) (hl : i < (len : ℤ)) :
    pyIdx len i = some i.toNat := by
  simp only [pyIdx]
  rw [if_neg (not_lt.mpr h0), if_pos ⟨h0, hl⟩]

theorem pyIdx_oob_high (len : ℕ) (i : ℤ) (h0 : 0 ≤ i) (hl : (len : ℤ) ≤ i) :
    pyIdx len i = none := by
  simp only [pyIdx]
  rw [if_neg (not_lt.mpr h0), if_neg (by push_neg; intro _; omega)]

theorem pyStrGet_pos (l : List Char) (i : ℤ) (h0 : 0 ≤ i)
    (hl : i < (l.length : ℤ)) :
    ∃ c, pyStrGet (String.mk l) i = .ok c ∧ l.get? i.toNat = some c := by
  have hn : i.toNat < l.length := by omega
  obtain ⟨c, hc⟩ : ∃ c, l.get? i.toNat = some c :=
    ⟨l.get ⟨i.toNat, hn⟩, List.get?_eq_get hn⟩
  refine ⟨c, ?_, hc⟩
  rw [pyStrGet, string_mk_length, pyIdx_pos _ _ h0 hl]
  show ((String.mk l).toList.get? i.toNat).elim
    (Except.error Err.hostIndexError) Except.ok = Except.ok c
  rw [show (String.mk l).toList = l from rfl, hc]
  rfl

theorem pyStrGet_oob_high (l : List Char) (i : ℤ) (h0 : 0 ≤ i)
    (hl : (l.length : ℤ) ≤ i) :
    pyStrGet (String.mk l) i = .error .hostIndexError := by
  rw [pyStrGet, string_mk_length, pyIdx_oob_high _ _ h0 hl]

/-! ## Claim theorems -/

/-- **C1.**  Evaluation of the code at the claim's own example, exhibiting the
divergence: inserting `9` at fractional key `0.5` into the list `[1, 2]`
splices at real position `floor(0.5 + 2) = 2` and maps user index `0.5` to
real index `1`, but a subsequent read of `0.5` returns `2` — the element in
front of the splice point — instead of the inserted `9`, because
`access_index` reads `values[real_index]` without the `+1` offset used by
`pop`, string access and number access; the pre-existing user index `-1`
(which read `2` before the insert, through Python's negative wraparound) now
reads the inserted `9`. -/
theorem c1_fractional_insert_misreads :
    GulfOfMexicoList.assign_index (mkList [.num (.pyInt 1), .num (.pyInt 2)])
        (.num (.pyFloat (1 / 2))) (.num (.pyInt 9)) =
      .ok ⟨[.num (.pyInt 1), .num (.pyInt 2), .num (.pyInt 9)],
           [(-1, -1), (0, 0), (1 / 2, 1)]⟩ ∧
    GulfOfMexicoList.access_index
        ⟨[.num (.pyInt 1), .num (.pyInt 2), .num (.pyInt 9)],
         [(-1, -1), (0, 0), (1 / 2, 1)]⟩ (.num (.pyFloat (1 / 2))) =
      .ok (.num (.pyInt 2)) ∧
    GulfOfMexicoList.access_index
        ⟨[.num (.pyInt 1), .num (.pyInt 2), .num (.pyInt 9)],
         [(-1, -1), (0, 0), (1 / 2, 1)]⟩ (.num (.pyInt 0)) =
      .ok (.num (.pyInt 1)) ∧
    GulfOfMexicoList.access_index (mkList [.num (.pyInt 1), .num (.pyInt 2)])
        (.num (.pyInt (-1))) = .ok (.num (.pyInt 2)) ∧
    GulfOfMexicoList.access_index
        ⟨[.num (.pyInt 1), .num (.pyInt 2), .num (.pyInt 9)],
         [(-1, -1), (0, 0), (1 / 2, 1)]⟩ (.num (.pyInt (-1))) =
      .ok (.num (.pyInt 9)) ∧
    Value.num (.pyInt 2) ≠ Value.num (.pyInt 9) := by
  refine ⟨?_, ?_, ?_, ?_, ?_, ?_⟩
  · with_unfolding_all rfl
  · with_unfolding_all rfl
  · with_unfolding_all rfl
  · with_unfolding_all rfl
  · with_unfolding_all rfl
  · intro h
    injection h with h1
    injection h1 with h2
    exact absurd h2 (by decide)

/-- **C3** (counterexample).  Indexing a one-element list at `0` does fail,
but with the unassigned-index error `"No value assigned to that index"`
(the in-bounds key `0` is simply absent from the fresh indexer, whose only
key is `-1`), not with the out-of-bounds error `"Indexing out of list
bounds."` that the claim names. -/
theorem c3_counterexample :
    GulfOfMexicoList.access_index (mkList [.num (.pyInt 7)]) (.num (.pyInt 0)) =
      .error (.nonFormatted "No value assigned to that index") ∧
    Err.nonFormatted "No value assigned to that index" ≠
      Err.nonFormatted "Indexing out of list bounds." :=
  ⟨by with_unfolding_all rfl, by decide⟩

/-- **C3** (amended).  A fresh list's default user indices are
`-1, 0, …, len - 2`; indexing a one-element list at `-1` returns its element,
and indexing it at `0` fails with the unassigned-index error (not
`IndexOutOfBounds`: the bound check `-1 ≤ 0 ≤ 0` passes). -/
theorem c3_default_indices_one_element :
    (∀ vs : List Value,
        dictKeys (mkList vs).indexer =
          (List.range vs.length).map (fun i : ℕ => ((i : ℚ) - 1))) ∧
    (∀ v : Value,
        GulfOfMexicoList.access_index (mkList [v]) (.num (.pyInt (-1))) = .ok v) ∧
    (∀ v : Value,
        GulfOfMexicoList.access_index (mkList [v]) (.num (.pyInt 0)) =
          .error (.nonFormatted "No value assigned to that index")) := by
  refine ⟨?_, ?_, ?_⟩
  · intro vs
    show dictKeys (GulfOfMexicoList.post_init_indexer vs.length) = _
    unfold GulfOfMexicoList.post_init_indexer dictKeys
    rw [List.map_map]
    refine List.map_congr_left ?_
    intro i _
    simp only [Function.comp_apply]
    push_cast
    ring
  · intro v
    with_unfolding_all rfl
  · intro v
    with_unfolding_all rfl

/-- **C5** (counterexample).  `to_string` of the `int`-backed number `123` is
`"123"`; converting that string back via `Number` yields the float `123.0`
(Python `float()`), whose `to_string` is `"123.0" ≠ "123"` — so
`to_string ∘ Number ∘ to_string` is not idempotent on `int`-backed integer
numbers. -/
theorem c5_counterexample :
    db_to_string (.num (.pyInt 123)) = "123" ∧
    db_to_number (.str (db_to_string (.num (.pyInt 123))) []) =
      .ok (.pyFloat 123) ∧
    db_to_string (.num (.pyFloat 123)) = "123.0" ∧
    ("123.0" : String) ≠ "123" :=
  ⟨by with_unfolding_all rfl, by with_unfolding_all rfl,
   by with_unfolding_all rfl, by decide⟩

/-- **C5** (amended).  On `float`-backed numbers holding an integer of
magnitude below `10^16`, the composition `to_string ∘ Number ∘ to_string`
reproduces `to_string` exactly: the string `"n.0"` parses back to the same
float and prints identically. -/
theorem c5_roundtrip_float_int (q : ℚ) (h1 : q.den = 1)
    (h2 : q.num.natAbs < 10 ^ 16) :
    (db_to_number (.str (db_to_string (.num (.pyFloat q))) [])).map
        (fun n => db_to_string (.num n)) =
      .ok (db_to_string (.num (.pyFloat q))) := by
  have hs : db_to_string (.num (.pyFloat q)) = intToDecimal q.num ++ ".0" := by
    simp only [db_to_string, pyStr]
    rw [if_pos ⟨h1, h2⟩]
  have hq : ((q.num : ℚ)) = q := Rat.coe_int_num_of_den_eq_one h1
  rw [hs]
  simp [db_to_number, pyFloatParse_decimal q.num, hq, hs, Except.map]

/-- Witness for `c5_roundtrip_float_int` at `q = 123`. -/
theorem c5_roundtrip_float_int_witness :
    (123 : ℚ).den = 1 ∧ (123 : ℚ).num.natAbs < 10 ^ 16 ∧
    (db_to_number (.str (db_to_string (.num (.pyFloat 123))) [])).map
        (fun n => db_to_string (.num n)) =
      .ok (db_to_string (.num (.pyFloat 123))) :=
  ⟨by with_unfolding_all decide, by with_unfolding_all decide,
   c5_roundtrip_float_int 123 (by with_unfolding_all decide)
     (by with_unfolding_all decide)⟩

/-- **C8** (counterexample).  The preloaded table registers `read` and
`write` with the variadic sentinel arity `-1`, not with arities `1` and `2`
as the claim states. -/
theorem c8_counterexample :
    builtinArity "read" = some (-1) ∧ builtinArity "write" = some (-1) ∧
    (some (-1 : ℤ) ≠ some 1) ∧ (some (-1 : ℤ) ≠ some 2) :=
  ⟨rfl, rfl, by decide, by decide⟩

/-- **C8** (amended).  In `BUILTIN_FUNCTION_KEYWORDS`, `read`, `write` and
`print` are all registered with the sentinel arity `-1`. -/
theorem c8_builtin_arities :
    builtinArity "read" = some (-1) ∧ builtinArity "write" = some (-1) ∧
    builtinArity "print" = some (-1) :=
  ⟨rfl, rfl, rfl⟩

/-- **C9.**  `GulfOfMexicoNumber.assign_index` on a receiver whose value is
exactly `0` computes `sign = value / abs(value)` before validating anything,
so it raises an uncontrolled host `ZeroDivisionError` for every index and
every assigned value. -/
theorem c9_assign_index_zero_receiver (self : PyNum) (h : pyVal self = 0)
    (index val : Value) :
    GulfOfMexicoNumber.assign_index self index val = .error .hostZeroDivision := by
  rw [GulfOfMexicoNumber.assign_index]
  simp [h]

/-- **C10.**  `db_list_push` computes the new user index as
`max(indexer.keys()) + 1`, so on a freshly constructed empty list (whose
indexer is empty) an uncontrolled host `ValueError` escapes from `max()`;
on every list with a non-empty indexer (in particular every fresh non-empty
list) it appends the value and records a user index strictly larger than
every existing one, mapped to `len(values) - 1`. -/
theorem c10_push_empty_and_append (v val : Value) (xs : GoMList)
    (h : xs.indexer ≠ []) :
    db_list_push (mkList []) v = .error .hostValueError ∧
    ∃ m, dictMaxKey xs.indexer = some m ∧
      db_list_push xs val =
        .ok ⟨xs.values ++ [val],
             dictSet xs.indexer (m + 1) ((xs.values.length : ℤ) - 1)⟩ ∧
      (∀ k ∈ dictKeys xs.indexer, k < m + 1) ∧
      (m + 1) ∈ dictKeys (dictSet xs.indexer (m + 1) ((xs.values.length : ℤ) - 1)) := by
  constructor
  · rfl
  · have hex : (dictMaxKey xs.indexer).isSome := by
      cases hx : xs.indexer with
      | nil => exact absurd hx h
      | cons e d => simp [dictMaxKey, dictKeys, List.max?]
    obtain ⟨m, hm⟩ := Option.isSome_iff_exists.mp hex
    refine ⟨m, hm, ?_, ?_, mem_dictKeys_dictSet _ _ _⟩
    · simp [db_list_push, hm]
    · intro k hk
      have := max?_spec _ m hm k hk
      linarith

/-- Witness for `c10_push_empty_and_append` on the fresh one-element list
`[7]`. -/
theorem c10_push_empty_and_append_witness :
    (mkList [.num (.pyInt 7)]).indexer ≠ [] ∧
    (db_list_push (mkList []) (.num (.pyInt 5)) = .error .hostValueError ∧
      ∃ m, dictMaxKey (mkList [.num (.pyInt 7)]).indexer = some m ∧
        db_list_push (mkList [.num (.pyInt 7)]) (.num (.pyInt 5)) =
          .ok ⟨(mkList [.num (.pyInt 7)]).values ++ [.num (.pyInt 5)],
               dictSet (mkList [.num (.pyInt 7)]).indexer (m + 1)
                 (((mkList [.num (.pyInt 7)]).values.length : ℤ) - 1)⟩ ∧
        (∀ k ∈ dictKeys (mkList [.num (.pyInt 7)]).indexer, k < m + 1) ∧
        (m + 1) ∈ dictKeys (dictSet (mkList [.num (.pyInt 7)]).indexer (m + 1)
            (((mkList [.num (.pyInt 7)]).values.length : ℤ) - 1))) :=
  ⟨by with_unfolding_all decide,
   c10_push_empty_and_append (.num (.pyInt 5)) (.num (.pyInt 5))
     (mkList [.num (.pyInt 7)]) (by with_unfolding_all decide)⟩

/-- **C7.**  The `to_boolean` matrix: the empty string is `false`; a
non-empty all-whitespace string is `maybe`; a number of value `0` is
`false`; a number that Python-rounds to `0` but has magnitude above the
`1e-8` precision is `maybe`; functions, objects and keywords are `maybe`. -/
theorem c7_to_boolean_matrix :
    db_to_boolean (.str "" []) = .bool (some false) ∧
    (∀ (s : String) (ind : List (ℚ × (ℤ × String))),
        s ≠ "" → s.toList.all isPySpace = true →
        db_to_boolean (.str s ind) = .bool none) ∧
    (∀ n : PyNum, pyVal n = 0 → db_to_boolean (.num n) = .bool (some false)) ∧
    (∀ x : ℚ, pyRound x = 0 → |x| > FLOAT_TO_INT_PREC →
        db_to_boolean (.num (.pyFloat x)) = .bool none) ∧
    (∀ (args : List String) (ia : Bool),
        db_to_boolean (.func args ia) = .bool none) ∧
    (∀ cn, db_to_boolean (.obj cn) = .bool none) ∧
    (∀ kw, db_to_boolean (.keyword kw) = .bool none) := by
  refine ⟨?_, ?_, ?_, ?_, ?_, ?_, ?_⟩
  · with_unfolding_all rfl
  · intro s ind hne hsp
    have h1 : pyStrip s = "" := pyStrip_all_space s hsp
    have h2 : s.length ≠ 0 := string_length_ne_zero s hne
    simp [db_to_boolean, h1, h2]
  · intro n h
    simp [db_to_boolean, h, pyRound_zero, FLOAT_TO_INT_PREC]
  · intro x h1 h2
    simp [db_to_boolean, pyVal, h1, h2]
  · intro args ia; rfl
  · intro cn; rfl
  · intro kw; rfl

/-- Witness for `c7_to_boolean_matrix`: the single-space string, the `int`
zero, and `0.3` (which rounds to `0` but exceeds the precision). -/
theorem c7_to_boolean_matrix_witness :
    db_to_boolean (.str " " []) = .bool none ∧
    db_to_boolean (.num (.pyInt 0)) = .bool (some false) ∧
    db_to_boolean (.num (.pyFloat (3 / 10))) = .bool none :=
  ⟨c7_to_boolean_matrix.2.1 " " [] (by decide) (by decide),
   c7_to_boolean_matrix.2.2.1 (.pyInt 0) (by with_unfolding_all rfl),
   c7_to_boolean_matrix.2.2.2.1 (3 / 10) (by with_unfolding_all decide)
     (by with_unfolding_all decide)⟩

/-- **C4** (counterexample).  `db_to_number` is not total: it raises
`NonFormattedError` on a keyword (and on a non-empty list), so the three
conversions are not all total as claimed. -/
theorem c4_counterexample :
    db_to_number (.keyword "class") =
      .error (.nonFormatted "Cannot turn type GulfOfMexicoKeyword into a number.") ∧
    (∀ n, db_to_number (.keyword "class") ≠ .ok n) ∧
    db_to_number (.list [.num (.pyInt 1)] [(-1, -1)]) =
      .error (.nonFormatted "Cannot turn a non-empty list into a number.") := by
  refine ⟨rfl, ?_, rfl⟩
  intro n h
  simp [db_to_number] at h

/-- **C4** (amended).  `to_boolean` always returns a boolean value (and
`to_string` is total by construction, returning a string for every value,
empty or not); `to_number` raises exactly on functions, builtins, objects,
keywords, promises, the blank value, non-empty lists, non-empty maps, and
strings Python's `float()` rejects. -/
theorem c4_totality_characterization :
    (∀ v : Value, ∃ b, db_to_boolean v = .bool b) ∧
    (∀ v : Value,
        (∃ e, db_to_number v = .error e) ↔
          (match v with
           | .func _ _ => True
           | .builtin _ _ _ => True
           | .obj _ => True
           | .keyword _ => True
           | .promise _ => True
           | .blank => True
           | .list vs _ => vs ≠ []
           | .map es => es ≠ []
           | .str s _ => pyFloatParse s = none
           | _ => False)) := by
  constructor
  · intro v
    cases v <;> exact ⟨_, rfl⟩
  · intro v
    cases v with
    | num n => simp [db_to_number]
    | str s ind => cases hp : pyFloatParse s <;> simp [db_to_number, hp]
    | list vs ind => cases vs <;> simp [db_to_number]
    | map es => cases es <;> simp [db_to_number]
    | bool b => simp [db_to_number]
    | undefined => simp [db_to_number]
    | blank => simp [db_to_number]
    | func a i => simp [db_to_number]
    | builtin a t m => simp [db_to_number]
    | obj c => simp [db_to_number]
    | keyword k => simp [db_to_number]
    | promise p => simp [db_to_number]

/-- **C6** (counterexample).  The key `2` is integral and lies in the
claimed admissible range `[-1, digits - 1] = [-1, 2]` of the number `123`
(whose digit string is `"123"`), yet `access_index` does not return a digit:
the read of `self_val_str[round(2) + 1] = "123"[3]` escapes with a host
`IndexError`. -/
theorem c6_counterexample :
    GulfOfMexicoNumber.access_index (.pyInt 123) (.num (.pyInt 2)) =
      .error .hostIndexError ∧
    (∀ v, GulfOfMexicoNumber.access_index (.pyInt 123) (.num (.pyInt 2)) ≠ .ok v) ∧
    is_int ((2 : ℤ) : ℚ) = true ∧
    GulfOfMexicoNumber.get_self_str (.pyInt 123) = "123" ∧
    (-1 : ℤ) ≤ 2 ∧ (2 : ℤ) ≤ ("123".length : ℤ) - 1 := by
  refine ⟨by with_unfolding_all rfl, ?_, is_int_intCast 2,
    by with_unfolding_all rfl, by decide, by decide⟩
  intro v h
  rw [show GulfOfMexicoNumber.access_index (.pyInt 123) (.num (.pyInt 2)) =
      .error .hostIndexError by with_unfolding_all rfl] at h
  exact Except.noConfusion h

/-- **C6** (amended).  Digit indexing on an `int`-backed number `n`: an
integral key in `[-1, digits - 2]` returns the decimal digit of `|n|` at
offset `key + 1`; the top key `digits - 1` passes the code's bound check
`[-1, digits - 1]` but escapes with a host `IndexError`; a non-integral key
or an out-of-range key fails with the matching `NonFormattedError`s; `123`
indexed at `-1, 0, 1` yields `1, 2, 3`; `assign_index` rejects any assigned
value that is not a single-digit integer `0..9`, and assigning `9` at index
`0` of `123` yields the float `193.0`. -/
theorem c6_digit_indexing (n j : ℤ) (h1 : -1 ≤ j)
    (h2 : j ≤ ((natToDigits n.natAbs).length : ℤ) - 2) :
    (∃ c d, (natToDigits n.natAbs).get? (j + 1).toNat = some c ∧
        charDigit c = some d ∧
        GulfOfMexicoNumber.access_index (.pyInt n) (.num (.pyInt j)) =
          .ok (.num (.pyInt (d : ℤ)))) ∧
    GulfOfMexicoNumber.access_index (.pyInt n)
        (.num (.pyInt (((natToDigits n.natAbs).length : ℤ) - 1))) =
      .error .hostIndexError ∧
    (∀ x : ℚ, is_int x = false →
        GulfOfMexicoNumber.access_index (.pyInt n) (.num (.pyFloat x)) =
          .error (.nonFormatted "Expected integer for number indexing.")) ∧
    (∀ k : ℤ, (k < -1 ∨ ((natToDigits n.natAbs).length : ℤ) - 1 < k) →
        GulfOfMexicoNumber.access_index (.pyInt n) (.num (.pyInt k)) =
          .error (.nonFormatted "Indexing out of number bounds.")) ∧
    (GulfOfMexicoNumber.access_index (.pyInt 123) (.num (.pyInt (-1))) =
        .ok (.num (.pyInt 1)) ∧
      GulfOfMexicoNumber.access_index (.pyInt 123) (.num (.pyInt 0)) =
        .ok (.num (.pyInt 2)) ∧
      GulfOfMexicoNumber.access_index (.pyInt 123) (.num (.pyInt 1)) =
        .ok (.num (.pyInt 3))) ∧
    (∀ m w : PyNum,
        ¬(is_int (pyVal w) = true ∧ 0 ≤ pyVal w ∧ pyVal w ≤ 9) →
        GulfOfMexicoNumber.assign_index (.pyInt 123) (.num m) (.num w) =
          .error (.nonFormatted "Cannot assign into a number with a non-integer value.")) ∧
    (∀ (s : String) (ind : List (ℚ × (ℤ × String))) (m : PyNum),
        GulfOfMexicoNumber.assign_index (.pyInt 123) (.num m) (.str s ind) =
          .error (.nonFormatted "Cannot assign into a number with a non-integer value.")) ∧
    GulfOfMexicoNumber.assign_index (.pyInt 123) (.num (.pyInt 0))
        (.num (.pyInt 9)) = .ok (.pyFloat 193) := by
  have hlen1 : 1 ≤ (natToDigits n.natAbs).length :=
    List.length_pos.mpr (natToDigits_ne_nil _)
  refine ⟨?_, ?_, ?_, ?_,
    ⟨by with_unfolding_all rfl, by with_unfolding_all rfl,
      by with_unfolding_all rfl⟩, ?_, ?_, by with_unfolding_all rfl⟩
  · -- in-range digit read
    obtain ⟨c, hget, hc⟩ :=
      pyStrGet_pos (natToDigits n.natAbs) (j + 1) (by omega)
        (by exact_mod_cast (by omega : j + 1 < ((natToDigits n.natAbs).length : ℤ)))
    obtain ⟨d, hd, hcd⟩ :=
      natToDigits_mem n.natAbs c (List.get?_mem hc)
    refine ⟨c, d, hc, by rw [hcd]; exact charDigit_digitChar d hd, ?_⟩
    have hb1 : (-1 : ℚ) ≤ (j : ℚ) := by exact_mod_cast h1
    have hb2 : (j : ℚ) ≤ ((natToDigits n.natAbs).length : ℚ) - 1 := by
      have : (j : ℚ) ≤ (((natToDigits n.natAbs).length : ℤ) : ℚ) - 1 := by
        exact_mod_cast (by omega : j ≤ ((natToDigits n.natAbs).length : ℤ) - 1)
      exact_mod_cast this
    rw [GulfOfMexicoNumber.access_index]
    simp only [get_self_str_pyInt, pyVal, is_int_intCast, Bool.true_eq_false,
      not_true_eq_false, if_false, string_mk_length, pyRound_intCast]
    rw [if_neg (not_not_intro ⟨hb1, hb2⟩)]
    rw [hget]
    simp [hcd, charDigit_digitChar d hd]
  · -- top-boundary key escapes with IndexError
    have hb1 : (-1 : ℚ) ≤ ((((natToDigits n.natAbs).length : ℤ) - 1 : ℤ) : ℚ) := by
      exact_mod_cast (by omega : (-1 : ℤ) ≤ ((natToDigits n.natAbs).length : ℤ) - 1)
    have hb2 : ((((natToDigits n.natAbs).length : ℤ) - 1 : ℤ) : ℚ) ≤
        ((natToDigits n.natAbs).length : ℚ) - 1 := by
      have : ((((natToDigits n.natAbs).length : ℤ) - 1 : ℤ) : ℚ) ≤
          (((natToDigits n.natAbs).length : ℤ) : ℚ) - 1 := by
        exact_mod_cast le_refl _
      exact_mod_cast this
    rw [GulfOfMexicoNumber.access_index]
    simp only [get_self_str_pyInt, pyVal, is_int_intCast, Bool.true_eq_false,
      not_true_eq_false, if_false, string_mk_length, pyRound_intCast]
    rw [if_neg (not_not_intro ⟨hb1, hb2⟩)]
    rw [pyStrGet_oob_high (natToDigits n.natAbs)
      (((natToDigits n.natAbs).length : ℤ) - 1 + 1) (by omega) (by omega)]
  · -- non-integral key
    intro x hx
    rw [GulfOfMexicoNumber.access_index]
    simp only [pyVal, hx, Bool.false_eq_true, not_false_eq_true, if_true]
  · -- out-of-bounds integral key
    intro k hk
    have hcond : ¬((-1 : ℚ) ≤ (k : ℚ) ∧
        (k : ℚ) ≤ ((natToDigits n.natAbs).length : ℚ) - 1) := by
      rintro ⟨ha, hb⟩
      rcases hk with hk | hk
      · have : (-1 : ℤ) ≤ k := by exact_mod_cast ha
        omega
      · have : (k : ℚ) ≤ (((natToDigits n.natAbs).length : ℤ) : ℚ) - 1 := by
          exact_mod_cast hb
        have : k ≤ ((natToDigits n.natAbs).length : ℤ) - 1 := by
          exact_mod_cast this
        omega
    rw [GulfOfMexicoNumber.access_index]
    simp only [get_self_str_pyInt, pyVal, is_int_intCast, Bool.true_eq_false,
      not_true_eq_false, if_false, string_mk_length]
    rw [if_pos hcond]
  · -- assigned value must be a single digit
    intro m w hw
    rw [GulfOfMexicoNumber.assign_index]
    rw [if_neg (show ¬pyVal (.pyInt 123) = 0 by norm_num [pyVal])]
    simp only [show pyVal (.pyInt 123) = ((123 : ℤ) : ℚ) from rfl, is_int_intCast,
      Bool.true_eq_false, not_true_eq_false, if_false]
    rw [if_pos hw]
  · -- non-number assigned value
    intro s ind m
    rw [GulfOfMexicoNumber.assign_index]
    rw [if_neg (show ¬pyVal (.pyInt 123) = 0 by norm_num [pyVal])]
    simp only [show pyVal (.pyInt 123) = ((123 : ℤ) : ℚ) from rfl, is_int_intCast,
      Bool.true_eq_false, not_true_eq_false, if_false]

/-- Witness for `c6_digit_indexing` at `n = 123`, `j = 0`: position `0`
(offset `1` in `"123"`) holds the digit `2`. -/
theorem c6_digit_indexing_witness :
    (-1 : ℤ) ≤ 0 ∧ (0 : ℤ) ≤ ((natToDigits (123 : ℤ).natAbs).length : ℤ) - 2 ∧
    (∃ c d, (natToDigits (123 : ℤ).natAbs).get? ((0 : ℤ) + 1).toNat = some c ∧
        charDigit c = some d ∧
        GulfOfMexicoNumber.access_index (.pyInt 123) (.num (.pyInt 0)) =
          .ok (.num (.pyInt (d : ℤ)))) :=
  ⟨by decide, by decide,
   (c6_digit_indexing 123 0 (by decide) (by decide)).1⟩

/-- **C2.**  `add_lifetime` inserts at the first position `i` with
`i = len` or `lifetimes[i].confidence ≥ confidence` (parts 1–3), and appends
the old head's value to `prev_values` exactly when the insertion lands at
position `0` of a non-empty list (parts 4–5).  For a confidence-sorted
lifetime list, both `add_lifetime` and `clear_outdated_lifetimes` preserve
the head-minimality invariant (parts 6–7); an insertion with confidence
equal to the head's becomes the new observed head (part 8), and one with
strictly greater confidence leaves the observed value unchanged (part 9). -/
theorem c2_add_lifetime_ordering (self : Variable) (value : Value)
    (confidence duration : ℤ) (cbr cev itmp : Bool) (tdur now now2 : ℚ)
    (hs : confSorted self.lifetimes) :
    (self.add_lifetime value confidence duration cbr cev itmp tdur now).lifetimes =
      self.lifetimes.take (insertPos confidence self.lifetimes) ++
        ⟨value, duration, confidence, cbr, cev, now, itmp, tdur⟩ ::
          self.lifetimes.drop (insertPos confidence self.lifetimes) ∧
    (insertPos confidence self.lifetimes = self.lifetimes.length ∨
      ∃ l, self.lifetimes.get? (insertPos confidence self.lifetimes) = some l ∧
        confidence ≤ l.confidence) ∧
    (∀ j, j < insertPos confidence self.lifetimes →
      ∀ l, self.lifetimes.get? j = some l → l.confidence < confidence) ∧
    ((insertPos confidence self.lifetimes = 0 ∧ self.lifetimes ≠ []) →
      ∃ hd, self.lifetimes.head? = some hd ∧
        (self.add_lifetime value confidence duration cbr cev itmp tdur now).prev_values =
          self.prev_values ++ [hd.value]) ∧
    (¬(insertPos confidence self.lifetimes = 0 ∧ self.lifetimes ≠ []) →
      (self.add_lifetime value confidence duration cbr cev itmp tdur now).prev_values =
        self.prev_values) ∧
    headConfLe
      (self.add_lifetime value confidence duration cbr cev itmp tdur now).lifetimes ∧
    headConfLe (self.clear_outdated_lifetimes now2).lifetimes ∧
    (∀ hd, self.lifetimes.head? = some hd → hd.confidence = confidence →
      Variable.value (self.add_lifetime value confidence duration cbr cev itmp tdur now) =
        .ok value) ∧
    (∀ hd, self.lifetimes.head? = some hd → hd.confidence < confidence →
      Variable.value (self.add_lifetime value confidence duration cbr cev itmp tdur now) =
        Variable.value self) := by
  refine ⟨?_, insertPos_hit confidence self.lifetimes,
    insertPos_min confidence self.lifetimes, ?_, ?_, ?_, ?_, ?_, ?_⟩
  · show insertLifetime _ self.lifetimes = _
    exact insertLifetime_eq_take_drop _ self.lifetimes
  · rintro ⟨hi, hne⟩
    cases hls : self.lifetimes with
    | nil => exact absurd hls hne
    | cons hd rest =>
        refine ⟨hd, rfl, ?_⟩
        have hle : confidence ≤ hd.confidence :=
          (insertPos_zero_iff confidence hd rest).mp (by rw [← hls]; exact hi)
        show (match self.lifetimes with
          | [] => self.prev_values
          | l :: _ => if l.confidence ≥ confidence then
              self.prev_values ++ [l.value] else self.prev_values) = _
        rw [hls]
        simp [hle]
  · intro hni
    cases hls : self.lifetimes with
    | nil =>
        show (match self.lifetimes with
          | [] => self.prev_values
          | l :: _ => if l.confidence ≥ confidence then
              self.prev_values ++ [l.value] else self.prev_values) = _
        rw [hls]
    | cons hd rest =>
        have hi : insertPos confidence self.lifetimes ≠ 0 := by
          intro h0
          exact hni ⟨h0, by rw [hls]; simp⟩
        have hgt : ¬(confidence ≤ hd.confidence) := by
          intro hle
          exact hi (by rw [hls]; exact (insertPos_zero_iff confidence hd rest).mpr hle)
        show (match self.lifetimes with
          | [] => self.prev_values
          | l :: _ => if l.confidence ≥ confidence then
              self.prev_values ++ [l.value] else self.prev_values) = _
        rw [hls]
        simp [hgt]
  · exact headConfLe_of_confSorted _
      (confSorted_insertLifetime _ self.lifetimes hs)
  · exact headConfLe_of_confSorted _
      (confSorted_filter self.lifetimes _ hs)
  · intro hd hhd hconf
    cases hls : self.lifetimes with
    | nil => rw [hls] at hhd; exact Option.noConfusion hhd
    | cons l rest =>
        rw [hls] at hhd
        have hl : l = hd := by injection hhd
        show Variable.value ⟨self.name, insertLifetime _ self.lifetimes, _⟩ = _
        rw [hls, insertLifetime, if_pos (by rw [hl, hconf])]
        rfl
  · intro hd hhd hlt
    cases hls : self.lifetimes with
    | nil => rw [hls] at hhd; exact Option.noConfusion hhd
    | cons l rest =>
        rw [hls] at hhd
        have hl : l = hd := by injection hhd
        show Variable.value ⟨self.name, insertLifetime _ self.lifetimes, _⟩ = _
        rw [hls, insertLifetime, if_neg (by rw [hl]; exact not_le.mpr hlt)]
        rw [show Variable.value self =
          (match self.lifetimes with
            | l :: _ => Except.ok l.value
            | [] => Except.error (.nonFormatted "Variable is undefined.")) from rfl]
        rw [hls]
        rfl

/-- Witness for `c2_add_lifetime_ordering`: a sorted two-lifetime variable
(confidences `0, 5`); inserting a new value at confidence `0` (equal to the
head's) makes it the observed head. -/
theorem c2_add_lifetime_ordering_witness :
    confSorted [⟨.num (.pyInt 1), 99, 0, true, true, 0, false, 0⟩,
                ⟨.num (.pyInt 2), 99, 5, true, true, 0, false, 0⟩] ∧
    Variable.value
        (Variable.add_lifetime
          ⟨"x", [⟨.num (.pyInt 1), 99, 0, true, true, 0, false, 0⟩,
                 ⟨.num (.pyInt 2), 99, 5, true, true, 0, false, 0⟩], []⟩
          (.num (.pyInt 3)) 0 42 true true false 0 0) =
      .ok (.num (.pyInt 3)) :=
  ⟨by unfold confSorted; decide,
   (c2_add_lifetime_ordering
      ⟨"x", [⟨.num (.pyInt 1), 99, 0, true, true, 0, false, 0⟩,
             ⟨.num (.pyInt 2), 99, 5, true, true, 0, false, 0⟩], []⟩
      (.num (.pyInt 3)) 0 42 true true false 0 0 0
      (by unfold confSorted; decide)).2.2.2.2.2.2.2.1
     ⟨.num (.pyInt 1), 99, 0, true, true, 0, false, 0⟩ rfl rfl⟩

/-- Witness for `c9_assign_index_zero_receiver` at the `int` receiver `0`. -/
theorem c9_assign_index_zero_receiver_witness :
    pyVal (.pyInt 0) = 0 ∧
    GulfOfMexicoNumber.assign_index (.pyInt 0) (.num (.pyInt 0))
        (.num (.pyInt 5)) = .error .hostZeroDivision :=
  ⟨by with_unfolding_all rfl,
   c9_assign_index_zero_receiver (.pyInt 0) (by with_unfolding_all rfl)
     (.num (.pyInt 0)) (.num (.pyInt 5))⟩

end GulfSpec
